import Mathlib

/-!
# A verification development for the `risp` Lisp interpreter

This file gives a shallow embedding of `src/main.rs` of the `risp`
repository — a minimal Lisp interpreter (tokenizer, recursive-descent
parser, environment-chained evaluator with the special forms `if`,
`def`, `fn`, `exit`, and arithmetic/comparison builtins) — and proves
properties of the embedded definitions.

Modelling conventions:
* Rust `f64` numbers are modelled as `ℚ`.  No property proved here
  depends on floating-point rounding, overflow or NaN; the numeric
  literals involved are small integers on which `f64` arithmetic and
  `ℚ` arithmetic agree, and the comparison chaining logic is proved
  parametrically in the comparison function.
* The `RispExp::Func` variant holds a Rust function pointer.  Only the
  seven builtins installed by `default_env` ever inhabit it, so it is
  modelled by an enumeration `BuiltinId` of those seven functions,
  applied through `apply_func`.
* `HashMap<String, RispExp>` is modelled by an association list with
  overwriting insertion (`insertA`) and first-hit lookup (`lookupA`).
* The evaluator is total in Lean via a fuel parameter; exhausted fuel
  yields the distinguished outcome `.diverge` (for a computation the
  Rust code would continue running) and `process::exit(0)` yields the
  distinguished outcome `.exited`.  The Rust evaluator mutates the
  environment through `&mut`, so the embedded evaluator threads the
  environment explicitly, also on the error path.
-/

namespace Risp

/-- The builtin functions installed by `default_env` (model of the
`RispExp::Func` function pointers in `src/main.rs`). -/
inductive BuiltinId where
  | add   -- "+"
  | sub   -- "-"
  | eq    -- "="
  | gt    -- ">"
  | gte   -- ">="
  | lt    -- "<"
  | lte   -- "<="
deriving DecidableEq, Repr

/-- `enum RispExp` from `src/main.rs`.  `Number` carries `ℚ` (model of
`f64`); `Func` carries a `BuiltinId` (model of the function pointer);
`Lambda` carries the `params_exp` and `body_exp` of `struct RispLambda`
(the `Rc` indirection is irrelevant to values). -/
inductive RispExp where
  | bool (b : Bool)
  | symbol (s : String)
  | number (n : ℚ)
  | list (l : List RispExp)
  | func (f : BuiltinId)
  | lambda (params_exp : RispExp) (body_exp : RispExp)

/-- `enum RispErr` from `src/main.rs`. -/
inductive RispErr where
  | reason (msg : String)
deriving DecidableEq, Repr

/-- `struct RispEnv` from `src/main.rs`: a `data` map plus an optional
outer environment (`outer: Option<&RispEnv>`), written as two
constructors to keep the type a plain inductive. -/
inductive RispEnv where
  | root (data : List (String × RispExp))
  | child (data : List (String × RispExp)) (outer : RispEnv)

/-- Model of `HashMap::get`: first-hit lookup in the association list. -/
def lookupA (k : String) : List (String × RispExp) → Option RispExp
  | [] => none
  | (k', v) :: rest => if k' = k then some v else lookupA k rest

/-- Model of `HashMap::insert`: overwrite the binding of `k` if present,
otherwise append it. -/
def insertA (k : String) (v : RispExp) : List (String × RispExp) → List (String × RispExp)
  | [] => [(k, v)]
  | (k', v') :: rest => if k' = k then (k, v) :: rest else (k', v') :: insertA k v rest

/-- `env.data.insert(k, v)`: insertion into the local frame only. -/
def env_insert (k : String) (v : RispExp) : RispEnv → RispEnv
  | .root data => .root (insertA k v data)
  | .child data outer => .child (insertA k v data) outer

/-- `env_get` from `src/main.rs`: check the local `data` map, then
recurse into the `outer` environment. -/
def env_get (k : String) : RispEnv → Option RispExp
  | .root data => lookupA k data
  | .child data outer =>
      match lookupA k data with
      | some exp => some exp
      | none => env_get k outer

/-- Display of a `ℚ` number, model of Rust's `f64::to_string` (an
integral value prints without a fractional part). -/
def num_to_string (n : ℚ) : String :=
  if n.den = 1 then toString n.num else toString n

mutual

/-- The `fmt::Display` implementation for `RispExp` from `src/main.rs`:
lists print as the comma-joined rendering of their elements in
parentheses; functions and lambdas print as opaque placeholders. -/
def to_string : RispExp → String
  | .bool a => if a then "true" else "false"
  | .symbol s => s
  | .number n => num_to_string n
  | .list l => "(" ++ String.intercalate "," (to_string_list l) ++ ")"
  | .func _ => "Function \x7b\x7d"
  | .lambda _ _ => "Lambda \x7b\x7d"

/-- The element-wise rendering `list.iter().map(|x| x.to_string())` used
by the `List` arm of the `Display` implementation. -/
def to_string_list : List RispExp → List String
  | [] => []
  | x :: xs => to_string x :: to_string_list xs

end

/-- `parse_single_float` from `src/main.rs`. -/
def parse_single_float : RispExp → Except RispErr ℚ
  | .number num => .ok num
  | _ => .error (.reason "expected a number")

/-- `parse_list_of_floats` from `src/main.rs` (`iter().map(...).collect`
over `Result` short-circuits at the first error). -/
def parse_list_of_floats : List RispExp → Except RispErr (List ℚ)
  | [] => .ok []
  | x :: xs => do
      let v ← parse_single_float x
      let vs ← parse_list_of_floats xs
      .ok (v :: vs)

/-- The inner recursive function `f` of the `ensure_tonicity!` macro in
`src/main.rs`: check the relation between every adjacent pair. -/
def tonicity_f (check : ℚ → ℚ → Bool) : ℚ → List ℚ → Bool
  | _, [] => true
  | prev, x :: xs => check prev x && tonicity_f check x xs

/-- The closure produced by the `ensure_tonicity!` macro in
`src/main.rs`, parametric in the comparison `$check_fn`. -/
def ensure_tonicity (check : ℚ → ℚ → Bool) (args : List RispExp) :
    Except RispErr RispExp := do
  let floats ← parse_list_of_floats args
  match floats with
  | [] => .error (.reason "expected at least one number")
  | first :: rest => .ok (.bool (tonicity_f check first rest))

/-- The builtin function bodies installed by `default_env` in
`src/main.rs`, keyed by `BuiltinId` (model of calling through the
`RispExp::Func` function pointer). -/
def apply_func : BuiltinId → List RispExp → Except RispErr RispExp
  | .add, args => do
      let floats ← parse_list_of_floats args
      .ok (.number (floats.foldl (· + ·) 0))
  | .sub, args => do
      let floats ← parse_list_of_floats args
      match floats with
      | [] => .error (.reason "expected at least one number")
      | first :: rest => .ok (.number (first - rest.foldl (· + ·) 0))
  | .eq, args => ensure_tonicity (fun a b => decide (a = b)) args
  | .gt, args => ensure_tonicity (fun a b => decide (a > b)) args
  | .gte, args => ensure_tonicity (fun a b => decide (a ≥ b)) args
  | .lt, args => ensure_tonicity (fun a b => decide (a < b)) args
  | .lte, args => ensure_tonicity (fun a b => decide (a ≤ b)) args

/-- `default_env` from `src/main.rs`: the root frame holding the seven
builtins, with no outer environment. -/
def default_env : RispEnv :=
  .root [("+", .func .add), ("-", .func .sub), ("=", .func .eq),
         (">", .func .gt), (">=", .func .gte), ("<", .func .lt),
         ("<=", .func .lte)]

/-- `tokenize` from `src/main.rs`: surround each parenthesis with
spaces, then split on whitespace, discarding empty fragments (Rust's
`split_whitespace`). -/
def tokenize (expr : String) : List String :=
  ((((expr.replace "(" " ( ").replace ")" " ) ").split (·.isWhitespace)).filter
    (· ≠ ""))

/-- Model of Rust's `str::parse::<f64>` restricted to plain decimal
literals (optional sign, integer part, optional fractional part), the
only numeric shapes exercised here; the value is read into `ℚ`. -/
def parse_float? (s : String) : Option ℚ :=
  let core : String → Option ℚ := fun t =>
    match t.splitOn "." with
    | [intPart] => (intPart.toNat?).map (fun n => (n : ℚ))
    | [intPart, fracPart] =>
        match intPart.toNat?, fracPart.toNat? with
        | some i, some f => some ((i : ℚ) + (f : ℚ) / ((10 : ℚ) ^ fracPart.length))
        | _, _ => none
    | _ => none
  if s.startsWith "-" then (core (s.drop 1)).map (fun q => -q)
  else if s.startsWith "+" then core (s.drop 1)
  else core s

/-- `parse_atom` from `src/main.rs`. -/
def parse_atom (token : String) : RispExp :=
  if token = "true" then .bool true
  else if token = "false" then .bool false
  else
    match parse_float? token with
    | some v => .number v
    | none => .symbol token

mutual

/-- `parse` from `src/main.rs`, with a fuel parameter for termination;
`none` means the fuel ran out. -/
def parse (fuel : Nat) (tokens : List String) :
    Option (Except RispErr (RispExp × List String)) :=
  match fuel with
  | 0 => none
  | fuel + 1 =>
      match tokens with
      | [] => some (.error (.reason "could not get token"))
      | token :: rest =>
          if token = "(" then read_seq fuel [] rest
          else if token = ")" then some (.error (.reason "unexpected `)`"))
          else some (.ok (parse_atom token, rest))

/-- `read_seq` from `src/main.rs`; the loop is written as recursion with
the accumulated `res` as an explicit argument. -/
def read_seq (fuel : Nat) (res : List RispExp) (tokens : List String) :
    Option (Except RispErr (RispExp × List String)) :=
  match fuel with
  | 0 => none
  | fuel + 1 =>
      match tokens with
      | [] => some (.error (.reason "could not find closing `)`"))
      | next_token :: rest =>
          if next_token = ")" then some (.ok (.list res, rest))
          else
            match parse fuel (next_token :: rest) with
            | none => none
            | some (.error e) => some (.error e)
            | some (.ok (exp, new_xs)) => read_seq fuel (res ++ [exp]) new_xs

end

/-- `eval_lambda_args` from `src/main.rs`: build a `Lambda` from the
first two argument forms, unevaluated and unvalidated.  Note the
trailing space in `"fn definition can only have two forms "`, exactly
as in the source. -/
def eval_lambda_args (arg_forms : List RispExp) : Except RispErr RispExp :=
  match arg_forms.head? with
  | none => .error (.reason "expected args form")
  | some params_exp =>
      match arg_forms.get? 1 with
      | none => .error (.reason "expected second form")
      | some body_exp =>
          if arg_forms.length > 2 then
            .error (.reason "fn definition can only have two forms ")
          else
            .ok (.lambda params_exp body_exp)

/-- The element-wise check of `parse_list_of_symbol_strings`: each entry
must be a `Symbol`.  Note the typo `"argumen"` in the error message,
exactly as in the source. -/
def symbol_strings : List RispExp → Except RispErr (List String)
  | [] => .ok []
  | x :: xs =>
      match x with
      | .symbol s => do
          let ss ← symbol_strings xs
          .ok (s :: ss)
      | _ => .error (.reason "expected symbols in the argumen list")

/-- `parse_list_of_symbol_strings` from `src/main.rs`. -/
def parse_list_of_symbol_strings (form : RispExp) : Except RispErr (List String) :=
  match form with
  | .list l => symbol_strings l
  | _ => .error (.reason "expected args form to be a list")

/-- Outcome of one evaluator call.  `ok`/`err` carry the value or the
`RispErr` together with the state of the caller's environment after the
call (the Rust evaluator mutates its `&mut RispEnv` argument, also on
paths that end in `Err`); `exited` models `process::exit(0)`; `diverge`
models a computation the Rust code would still be running (fuel ran
out). -/
inductive StepRes (α : Type) where
  | ok (v : α) (env : RispEnv)
  | err (e : RispErr) (env : RispEnv)
  | exited
  | diverge

mutual

/-- `eval` from `src/main.rs`, with a fuel parameter for termination.
The special-form dispatch of `eval_built_in_form` is inlined in the
`List` arm (see `eval_built_in_form` below for the standalone dispatch
function and `eval_list_dispatch` relating the two). -/
def eval (fuel : Nat) (exp : RispExp) (env : RispEnv) : StepRes RispExp :=
  match fuel with
  | 0 => .diverge
  | fuel + 1 =>
      match exp with
      | .bool _ => .ok exp env
      | .symbol k =>
          match env_get k env with
          | some v => .ok v env
          | none => .err (.reason ("unexpected symbol k='" ++ k ++ "'")) env
      | .number _ => .ok exp env
      | .list l =>
          match l with
          | [] => .err (.reason "expected a non-empty list") env
          | first_form :: arg_forms =>
              match (match first_form with
                     | .symbol s =>
                         if s = "if" then some (eval_if_args fuel arg_forms env)
                         else if s = "def" then some (eval_def_args fuel arg_forms env)
                         else if s = "fn" then
                           some (match eval_lambda_args arg_forms with
                                 | .ok v => .ok v env
                                 | .error e => .err e env)
                         else if s = "exit" then some .exited
                         else none
                     | _ => none) with
              | some res => res
              | none =>
                  match eval fuel first_form env with
                  | .ok first_eval env1 =>
                      match first_eval with
                      | .func f =>
                          match eval_forms fuel arg_forms env1 with
                          | .ok args_eval env2 =>
                              match apply_func f args_eval with
                              | .ok v => .ok v env2
                              | .error e => .err e env2
                          | .err e env2 => .err e env2
                          | .exited => .exited
                          | .diverge => .diverge
                      | .lambda params_exp body_exp =>
                          match env_for_lambdas fuel params_exp arg_forms env1 with
                          | .ok new_env env2 =>
                              match eval fuel body_exp new_env with
                              | .ok v _ => .ok v env2
                              | .err e _ => .err e env2
                              | .exited => .exited
                              | .diverge => .diverge
                          | .err e env2 => .err e env2
                          | .exited => .exited
                          | .diverge => .diverge
                      | _ => .err (.reason "first form must be a function") env1
                  | .err e env1 => .err e env1
                  | .exited => .exited
                  | .diverge => .diverge
      | .func _ => .err (.reason "unexpected form") env
      | .lambda _ _ => .err (.reason "unexpected form") env

/-- `eval_if_args` from `src/main.rs`. -/
def eval_if_args (fuel : Nat) (arg_forms : List RispExp) (env : RispEnv) :
    StepRes RispExp :=
  match fuel with
  | 0 => .diverge
  | fuel + 1 =>
      match arg_forms.head? with
      | none => .err (.reason "expected test form") env
      | some test_form =>
          match eval fuel test_form env with
          | .ok test_eval env1 =>
              match test_eval with
              | .bool b =>
                  let form_idx : Nat := if b then 1 else 2
                  match arg_forms.get? form_idx with
                  | none =>
                      .err (.reason ("expected form idx=" ++ toString form_idx)) env1
                  | some res_form => eval fuel res_form env1
              | _ =>
                  .err (.reason ("unexpected test form='" ++ to_string test_form ++ "'"))
                    env1
          | .err e env1 => .err e env1
          | .exited => .exited
          | .diverge => .diverge

/-- `eval_def_args` from `src/main.rs`.  Note the trailing space in the
error message `"def can only have two forms "`, exactly as in the
source. -/
def eval_def_args (fuel : Nat) (arg_forms : List RispExp) (env : RispEnv) :
    StepRes RispExp :=
  match fuel with
  | 0 => .diverge
  | fuel + 1 =>
      match arg_forms.head? with
      | none => .err (.reason "expected first form") env
      | some first_form =>
          match first_form with
          | .symbol first_str =>
              match arg_forms.get? 1 with
              | none => .err (.reason "expected second form") env
              | some second_form =>
                  if arg_forms.length > 2 then
                    .err (.reason "def can only have two forms ") env
                  else
                    match eval fuel second_form env with
                    | .ok second_eval env1 =>
                        .ok first_form (env_insert first_str second_eval env1)
                    | .err e env1 => .err e env1
                    | .exited => .exited
                    | .diverge => .diverge
          | _ => .err (.reason "expected first form to be a symbol") env

/-- `eval_forms` from `src/main.rs`: evaluate the forms left to right,
short-circuiting at the first error (the `collect::<Result<...>>` over a
lazy iterator evaluates nothing past the first failure). -/
def eval_forms (fuel : Nat) (arg_forms : List RispExp) (env : RispEnv) :
    StepRes (List RispExp) :=
  match fuel with
  | 0 => .diverge
  | fuel + 1 =>
      match arg_forms with
      | [] => .ok [] env
      | x :: xs =>
          match eval fuel x env with
          | .ok v env1 =>
              match eval_forms fuel xs env1 with
              | .ok vs env2 => .ok (v :: vs) env2
              | .err e env2 => .err e env2
              | .exited => .exited
              | .diverge => .diverge
          | .err e env1 => .err e env1
          | .exited => .exited
          | .diverge => .diverge

/-- `env_for_lambdas` from `src/main.rs`: validate the parameter list,
check the arity, evaluate the argument forms in the outer environment,
and build the child frame whose `outer` is the (possibly mutated) outer
environment. -/
def env_for_lambdas (fuel : Nat) (params : RispExp) (arg_forms : List RispExp)
    (env : RispEnv) : StepRes RispEnv :=
  match fuel with
  | 0 => .diverge
  | fuel + 1 =>
      match parse_list_of_symbol_strings params with
      | .error e => .err e env
      | .ok ks =>
          if ks.length ≠ arg_forms.length then
            .err (.reason ("expected " ++ toString ks.length ++ " arguments, got " ++
                           toString arg_forms.length)) env
          else
            match eval_forms fuel arg_forms env with
            | .ok vs env1 =>
                .ok (.child ((ks.zip vs).foldl (fun d kv => insertA kv.1 kv.2 d) []) env1)
                  env1
            | .err e env1 => .err e env1
            | .exited => .exited
            | .diverge => .diverge

end

/-- `eval_built_in_form` from `src/main.rs` as a standalone dispatch
function; `eval` above inlines this dispatch (see
`eval_list_dispatch`). -/
def eval_built_in_form (fuel : Nat) (exp : RispExp) (arg_forms : List RispExp)
    (env : RispEnv) : Option (StepRes RispExp) :=
  match exp with
  | .symbol s =>
      if s = "if" then some (eval_if_args fuel arg_forms env)
      else if s = "def" then some (eval_def_args fuel arg_forms env)
      else if s = "fn" then
        some (match eval_lambda_args arg_forms with
              | .ok v => .ok v env
              | .error e => .err e env)
      else if s = "exit" then some .exited
      else none
  | _ => none

/-- `parse_eval` from `src/main.rs`: tokenize, parse, discard the
remaining tokens, evaluate. -/
def parse_eval (fuel : Nat) (expr : String) (env : RispEnv) : StepRes RispExp :=
  match parse fuel (tokenize expr) with
  | none => .diverge
  | some (.error e) => .err e env
  | some (.ok (parsed_exp, _)) => eval fuel parsed_exp env

/-- Does the expression carry the `Number` tag? (claim-side predicate) -/
def is_number : RispExp → Bool
  | .number _ => true
  | _ => false

/-- Does the expression carry the `Symbol` tag? (claim-side predicate) -/
def is_symbol : RispExp → Bool
  | .symbol _ => true
  | _ => false

/-- Does the expression carry the `List` tag? (claim-side predicate) -/
def is_list : RispExp → Bool
  | .list _ => true
  | _ => false

/-! ## Supporting lemmas -/

/-- The special-form dispatch inlined in `eval`'s `List` arm agrees with
the standalone `eval_built_in_form`, so `eval` consults the special-form
table before anything else happens to a non-empty list. -/
theorem eval_list_dispatch (fuel : Nat) (first_form : RispExp)
    (arg_forms : List RispExp) (env : RispEnv)
    (h : (eval_built_in_form fuel first_form arg_forms env).isSome) :
    eval (fuel + 1) (.list (first_form :: arg_forms)) env
      = (eval_built_in_form fuel first_form arg_forms env).get h := by
  cases first_form with
  | symbol s =>
      by_cases hif : s = "if"
      · subst hif; rfl
      · by_cases hdef : s = "def"
        · subst hdef; rfl
        · by_cases hfn : s = "fn"
          · subst hfn; rfl
          · by_cases hexit : s = "exit"
            · subst hexit; rfl
            · exfalso
              simp [eval_built_in_form, hif, hdef, hfn, hexit] at h
  | bool b => simp [eval_built_in_form] at h
  | number n => simp [eval_built_in_form] at h
  | list l => simp [eval_built_in_form] at h
  | func f => simp [eval_built_in_form] at h
  | lambda p b => simp [eval_built_in_form] at h

/-- `parse_list_of_floats` succeeds on a list of `Number`s, returning
the carried numbers. -/
theorem parse_list_of_floats_numbers (ns : List ℚ) :
    parse_list_of_floats (ns.map RispExp.number) = .ok ns := by
  induction ns with
  | nil => rfl
  | cons n ns ih =>
      simp only [List.map_cons, parse_list_of_floats, parse_single_float, ih]
      rfl

/-- `parse_list_of_floats` fails with `"expected a number"` as soon as
the argument list contains a non-`Number`. -/
theorem parse_list_of_floats_err (args : List RispExp)
    (h : ∃ x ∈ args, is_number x = false) :
    parse_list_of_floats args = .error (.reason "expected a number") := by
  induction args with
  | nil => simp at h
  | cons a rest ih =>
      obtain ⟨x, hx, hnum⟩ := h
      cases a with
      | number n =>
          have : ∃ x ∈ rest, is_number x = false := by
            rcases List.mem_cons.mp hx with h' | h'
            · subst h'; simp [is_number] at hnum
            · exact ⟨x, h', hnum⟩
          simp only [parse_list_of_floats, parse_single_float, ih this]
          rfl
      | bool b => rfl
      | symbol s => rfl
      | list l => rfl
      | func f => rfl
      | lambda p b => rfl

/-- The macro-generated chain checker `tonicity_f` answers `true`
exactly when the comparison holds between every adjacent pair
(`List.Chain'` of the induced relation). -/
theorem tonicity_f_chain (check : ℚ → ℚ → Bool) (n : ℚ) (ns : List ℚ) :
    tonicity_f check n ns = true
      ↔ List.Chain' (fun a b => check a b = true) (n :: ns) := by
  induction ns generalizing n with
  | nil => simp [tonicity_f]
  | cons x xs ih =>
      simp [tonicity_f, List.chain'_cons, Bool.and_eq_true, ih x]

/-- Restatement of `tonicity_f_chain` through `decide`. -/
theorem tonicity_f_decide (check : ℚ → ℚ → Bool) (n : ℚ) (ns : List ℚ) :
    tonicity_f check n ns
      = decide (List.Chain' (fun a b => check a b = true) (n :: ns)) := by
  by_cases h : List.Chain' (fun a b => check a b = true) (n :: ns)
  · simp [h, (tonicity_f_chain check n ns).mpr h]
  · cases hb : tonicity_f check n ns with
    | false => simp [h]
    | true => exact absurd ((tonicity_f_chain check n ns).mp hb) h

/-- `symbol_strings` recovers the names from a list of `Symbol`s. -/
theorem symbol_strings_symbols (ks : List String) :
    symbol_strings (ks.map RispExp.symbol) = .ok ks := by
  induction ks with
  | nil => rfl
  | cons k ks ih =>
      simp only [List.map_cons, symbol_strings, ih]
      rfl

/-- `symbol_strings` fails with the (typo'd) message as soon as the list
contains a non-`Symbol`. -/
theorem symbol_strings_err (l : List RispExp)
    (h : ∃ x ∈ l, is_symbol x = false) :
    symbol_strings l = .error (.reason "expected symbols in the argumen list") := by
  induction l with
  | nil => simp at h
  | cons a rest ih =>
      obtain ⟨x, hx, hsym⟩ := h
      cases a with
      | symbol s =>
          have : ∃ x ∈ rest, is_symbol x = false := by
            rcases List.mem_cons.mp hx with h' | h'
            · subst h'; simp [is_symbol] at hsym
            · exact ⟨x, h', hsym⟩
          simp only [symbol_strings, ih this]
          rfl
      | bool b => rfl
      | number n => rfl
      | list l' => rfl
      | func f => rfl
      | lambda p b => rfl

/-- Looking up a key right after inserting it finds the inserted value
(in the same frame's map). -/
theorem lookupA_insertA (k : String) (v : RispExp) (data : List (String × RispExp)) :
    lookupA k (insertA k v data) = some v := by
  induction data with
  | nil => simp [insertA, lookupA]
  | cons p rest ih =>
      obtain ⟨k', v'⟩ := p
      by_cases hk : k' = k
      · simp [insertA, lookupA, hk]
      · simp [insertA, lookupA, hk, ih]

/-- `read_seq` reports `"could not find closing `)`"` whenever the
remaining tokens contain no `")"` at all, given enough fuel. -/
theorem read_seq_unclosed (ts : List String) : ∀ (res : List RispExp) (fuel : Nat),
    ")" ∉ ts → 2 * ts.length + 1 ≤ fuel →
    read_seq fuel res ts = some (.error (.reason "could not find closing `)`")) := by
  induction ts with
  | nil =>
      intro res fuel _ h2
      obtain ⟨f, rfl⟩ : ∃ f, fuel = f + 1 := ⟨fuel - 1, by omega⟩
      rfl
  | cons t rest ih =>
      intro res fuel h1 h2
      have ht : ¬ (t = ")") := fun hh => h1 (by simp [hh])
      have hrest : ")" ∉ rest := fun hh => h1 (List.mem_cons_of_mem _ hh)
      have hlen : 2 * rest.length + 3 ≤ fuel := by
        simp only [List.length_cons] at h2; omega
      obtain ⟨f, rfl⟩ : ∃ f, fuel = f + 1 := ⟨fuel - 1, by omega⟩
      obtain ⟨g, rfl⟩ : ∃ g, f = g + 1 := ⟨f - 1, by omega⟩
      simp only [read_seq, parse]
      rw [if_neg ht]
      by_cases hp : t = "("
      · rw [if_pos hp, ih [] g hrest (by omega)]
      · rw [if_neg hp, if_neg ht]
        exact ih (res ++ [parse_atom t]) (g + 1) hrest (by omega)

/-! ## Claim theorems -/

/-- C1 (amended): for every environment frame, a `def` form with a
`Symbol` first argument form and exactly two argument forms evaluates
the value form in the current frame, binds the symbol's name to the
evaluated value in that same frame, and returns the symbol expression
itself (not the value); with more than two argument forms (and a
`Symbol` first form) it fails with
`Reason("def can only have two forms ")` — with a trailing space, as in
the source. -/
theorem def_form_spec :
    (∀ (fuel : Nat) (env env' : RispEnv) (s : String) (vform v : RispExp),
        eval fuel vform env = .ok v env' →
        eval_def_args (fuel + 1) [.symbol s, vform] env
          = .ok (.symbol s) (env_insert s v env'))
  ∧ (∀ (s : String) (v : RispExp) (env : RispEnv),
        env_get s (env_insert s v env) = some v)
  ∧ (∀ (fuel : Nat) (s : String) (f2 f3 : RispExp) (rest : List RispExp)
        (env : RispEnv),
        eval_def_args (fuel + 1) (.symbol s :: f2 :: f3 :: rest) env
          = .err (.reason "def can only have two forms ") env) := by
  refine ⟨?_, ?_, ?_⟩
  · intro fuel env env' s vform v h
    simp only [eval_def_args, List.head?_cons, List.get?_cons_succ,
               List.get?_cons_zero, List.length_cons, List.length_nil]
    rw [if_neg (by omega : ¬ ((0 : Nat) + 1 + 1 > 2)), h]
  · intro s v env
    cases env with
    | root data => simp [env_insert, env_get, lookupA_insertA]
    | child data outer => simp [env_insert, env_get, lookupA_insertA]
  · intro fuel s f2 f3 rest env
    simp only [eval_def_args, List.head?_cons, List.get?_cons_succ,
               List.get?_cons_zero, List.length_cons]
    rw [if_pos (by omega : rest.length + 1 + 1 + 1 > 2)]

/-- Witness for C1: `(def x 10)` in the default environment — the value
form `10` evaluates to itself and `x` is bound in the same frame, with
the symbol `x` returned. -/
theorem def_form_spec_witness :
    eval 1 (.number 10) default_env = .ok (.number 10) default_env
  ∧ eval_def_args 2 [.symbol "x", .number 10] default_env
      = .ok (.symbol "x") (env_insert "x" (.number 10) default_env) :=
  ⟨rfl, def_form_spec.1 1 default_env default_env "x" (.number 10) (.number 10) rfl⟩

/-- Counterexample for C1 as stated: the over-arity error message in the
code carries a trailing space, so the claimed message
`"def can only have two forms"` is not the one produced. -/
theorem def_form_message_cex :
    eval_def_args 1 [.symbol "x", .number 1, .number 2] (.root [])
      = .err (.reason "def can only have two forms ") (.root [])
  ∧ RispErr.reason "def can only have two forms "
      ≠ RispErr.reason "def can only have two forms" :=
  ⟨rfl, by decide⟩

/-- C2 (amended): a `fn` form with exactly two argument forms returns a
`Closure` wrapping the parameter-list expression and body expression
unevaluated and unvalidated (for arbitrary, even ill-formed, parameter
expressions); validation is lazy: only at application does a non-`List`
parameter expression fail with `Reason("expected args form to be a
list")` and a `List` containing a non-`Symbol` entry fail with
`Reason("expected symbols in the argumen list")` — with the source's
typo `argumen`. -/
theorem fn_form_spec :
    (∀ params body : RispExp,
        eval_lambda_args [params, body] = .ok (.lambda params body))
  ∧ (∀ (fuel : Nat) (env : RispEnv) (params body : RispExp),
        eval (fuel + 1) (.list [.symbol "fn", params, body]) env
          = .ok (.lambda params body) env)
  ∧ (∀ (fuel : Nat) (params : RispExp) (args : List RispExp) (env : RispEnv),
        is_list params = false →
        env_for_lambdas (fuel + 1) params args env
          = .err (.reason "expected args form to be a list") env)
  ∧ (∀ (fuel : Nat) (l : List RispExp) (args : List RispExp) (env : RispEnv),
        (∃ x ∈ l, is_symbol x = false) →
        env_for_lambdas (fuel + 1) (.list l) args env
          = .err (.reason "expected symbols in the argumen list") env) := by
  refine ⟨fun _ _ => rfl, fun _ _ _ _ => rfl, ?_, ?_⟩
  · intro fuel params args env h
    cases params with
    | list l => simp [is_list] at h
    | bool b => rfl
    | symbol s => rfl
    | number n => rfl
    | func f => rfl
    | lambda p b => rfl
  · intro fuel l args env h
    simp only [env_for_lambdas, parse_list_of_symbol_strings, symbol_strings_err l h]

/-- Witness for C2: a closure whose parameter expression is not a list
fails only at application with the list-shape message, and one whose
parameter list holds a number fails with the (typo'd) symbol message. -/
theorem fn_form_spec_witness :
    env_for_lambdas 1 (.bool true) [] (.root [])
      = .err (.reason "expected args form to be a list") (.root [])
  ∧ env_for_lambdas 1 (.list [.number 1]) [] (.root [])
      = .err (.reason "expected symbols in the argumen list") (.root []) :=
  ⟨fn_form_spec.2.2.1 0 (.bool true) [] (.root []) rfl,
   fn_form_spec.2.2.2 0 [.number 1] [] (.root []) ⟨.number 1, by simp, rfl⟩⟩

/-- Counterexample for C2 as stated: the non-`Symbol` entry message in
the code reads `"argumen"`, not `"argument"`. -/
theorem fn_typo_cex :
    env_for_lambdas 1 (.list [.number 1]) [] (.root [])
      = .err (.reason "expected symbols in the argumen list") (.root [])
  ∧ RispErr.reason "expected symbols in the argumen list"
      ≠ RispErr.reason "expected symbols in the argument list" :=
  ⟨rfl, by decide⟩

/-- C3: for every environment, evaluating a non-empty list whose head is
the symbol `if`, `def` or `fn` goes to the corresponding special-form
rule, with no symbol lookup of the head — so this holds in particular
for environments where the user has `def`ined one of those names, as
the concrete last conjunct shows for a binding of `if`. -/
theorem special_form_precedence :
    (∀ (fuel : Nat) (args : List RispExp) (env : RispEnv),
        eval (fuel + 1) (.list (.symbol "if" :: args)) env
          = eval_if_args fuel args env)
  ∧ (∀ (fuel : Nat) (args : List RispExp) (env : RispEnv),
        eval (fuel + 1) (.list (.symbol "def" :: args)) env
          = eval_def_args fuel args env)
  ∧ (∀ (fuel : Nat) (args : List RispExp) (env : RispEnv),
        eval (fuel + 1) (.list (.symbol "fn" :: args)) env
          = (match eval_lambda_args args with
             | .ok v => .ok v env
             | .error e => .err e env))
  ∧ eval 3 (.list [.symbol "if", .bool true, .number 1, .number 2])
        (env_insert "if" (.number 42) default_env)
      = .ok (.number 1) (env_insert "if" (.number 42) default_env) :=
  ⟨fun _ _ _ => rfl, fun _ _ _ => rfl, fun _ _ _ => rfl, rfl⟩

/-- C4: evaluating `Symbol(k)` returns the value bound to `k` in the
nearest frame — the local frame first, then the parent chain — when one
exists, and fails with `Reason("unexpected symbol k='<k>'")` exactly
when no frame of the chain binds `k` (i.e. when `env_get` is `none`). -/
theorem symbol_lookup_spec :
    (∀ (fuel : Nat) (k : String) (env : RispEnv) (v : RispExp),
        env_get k env = some v → eval (fuel + 1) (.symbol k) env = .ok v env)
  ∧ (∀ (fuel : Nat) (k : String) (env : RispEnv),
        env_get k env = none →
        eval (fuel + 1) (.symbol k) env
          = .err (.reason ("unexpected symbol k='" ++ k ++ "'")) env)
  ∧ (∀ (k : String) (data : List (String × RispExp)),
        env_get k (.root data) = lookupA k data)
  ∧ (∀ (k : String) (data : List (String × RispExp)) (outer : RispEnv)
        (v : RispExp),
        lookupA k data = some v → env_get k (.child data outer) = some v)
  ∧ (∀ (k : String) (data : List (String × RispExp)) (outer : RispEnv),
        lookupA k data = none → env_get k (.child data outer) = env_get k outer) := by
  refine ⟨?_, ?_, fun _ _ => rfl, ?_, ?_⟩
  · intro fuel k env v h
    simp only [eval]
    rw [h]
  · intro fuel k env h
    simp only [eval]
    rw [h]
  · intro k data outer v h
    simp only [env_get]
    rw [h]
  · intro k data outer h
    simp only [env_get]
    rw [h]

/-- Witness for C4: `x` bound in the local frame resolves to its value;
the unbound `y` fails with the message naming `y`. -/
theorem symbol_lookup_spec_witness :
    env_get "x" (env_insert "x" (.number 10) default_env) = some (.number 10)
  ∧ eval 1 (.symbol "x") (env_insert "x" (.number 10) default_env)
      = .ok (.number 10) (env_insert "x" (.number 10) default_env)
  ∧ env_get "y" default_env = none
  ∧ eval 1 (.symbol "y") default_env
      = .err (.reason ("unexpected symbol k='" ++ "y" ++ "'")) default_env :=
  ⟨rfl,
   symbol_lookup_spec.1 0 "x" (env_insert "x" (.number 10) default_env)
     (.number 10) rfl,
   rfl,
   symbol_lookup_spec.2.1 0 "y" default_env rfl⟩

/-- C6: applying a closure whose parameter expression is a list of `N`
symbols to `M ≠ N` argument forms fails with
`Reason("expected N arguments, got M")`, the caller's environment
unchanged — the argument forms (arbitrary here, even ill-formed ones)
are never evaluated, since the arity check precedes their evaluation. -/
theorem lambda_arity_spec (fuel : Nat) (ks : List String)
    (arg_forms : List RispExp) (env : RispEnv)
    (h : ks.length ≠ arg_forms.length) :
    env_for_lambdas (fuel + 1) (.list (ks.map RispExp.symbol)) arg_forms env
      = .err (.reason ("expected " ++ toString ks.length ++ " arguments, got "
                       ++ toString arg_forms.length)) env := by
  simp only [env_for_lambdas, parse_list_of_symbol_strings, symbol_strings_symbols]
  rw [if_pos h]

/-- Witness for C6: a two-parameter closure applied to one argument form
fails with the counts substituted, in an unchanged environment. -/
theorem lambda_arity_spec_witness :
    env_for_lambdas 1 (.list [.symbol "a", .symbol "b"]) [.number 1] (.root [])
      = .err (.reason ("expected " ++ toString (2 : Nat) ++ " arguments, got "
                       ++ toString (1 : Nat))) (.root []) :=
  lambda_arity_spec 0 ["a", "b"] [.number 1] (.root []) (by decide)

/-- C7 (amended): parsing a token sequence that begins with `"("` and
reaches end-of-input before the matching `")"` — here: whose remaining
tokens contain no `")"` at all, as for the tokens of `"(+ 1 2"` — fails
with ``Reason("could not find closing `)`")``, the closing parenthesis
quoted in backticks as in the source. -/
theorem unclosed_paren_spec (fuel : Nat) (ts : List String)
    (h1 : ")" ∉ ts) (h2 : 2 * ts.length + 2 ≤ fuel) :
    parse fuel ("(" :: ts)
      = some (.error (.reason "could not find closing `)`")) := by
  obtain ⟨f, rfl⟩ : ∃ f, fuel = f + 1 := ⟨fuel - 1, by omega⟩
  simp only [parse, if_true]
  exact read_seq_unclosed ts [] f h1 (by omega)

/-- Witness for C7: the tokens of `"(+ 1 2"`. -/
theorem unclosed_paren_spec_witness :
    parse 10 ["(", "+", "1", "2"]
      = some (.error (.reason "could not find closing `)`")) :=
  unclosed_paren_spec 10 ["+", "1", "2"] (by decide) (by decide)

/-- Counterexample for C7 as stated: on the tokens of `"(+ 1 2"` the
parser's message quotes the closing parenthesis in backticks, so it is
not the claimed `Reason("could not find closing )")`. -/
theorem unclosed_paren_message_cex :
    parse 10 ["(", "+", "1", "2"]
      = some (.error (.reason "could not find closing `)`"))
  ∧ RispErr.reason "could not find closing `)`"
      ≠ RispErr.reason "could not find closing )" :=
  ⟨rfl, by decide⟩

/-- C8: an `if` form whose test evaluates to a `Boolean` ignores every
argument form past index 2: whatever extra forms follow, only the form
at index 1 (test true) or index 2 (test false) is evaluated, and its
result is returned. -/
theorem if_extra_forms_spec (fuel : Nat) (env env' : RispEnv) (b : Bool)
    (test a1 a2 : RispExp) (extra : List RispExp)
    (h : eval fuel test env = .ok (.bool b) env') :
    eval_if_args (fuel + 1) (test :: a1 :: a2 :: extra) env
      = eval fuel (if b then a1 else a2) env' := by
  simp only [eval_if_args, List.head?_cons]
  rw [h]
  cases b <;> rfl

/-- Witness for C8: a true test with two result forms and a junk extra
form — the extra form is ignored and the then-branch is evaluated. -/
theorem if_extra_forms_spec_witness :
    eval 1 (.bool true) (.root []) = .ok (.bool true) (.root [])
  ∧ eval_if_args 2 [.bool true, .number 7, .number 8, .symbol "junk"] (.root [])
      = eval 1 (if true then RispExp.number 7 else RispExp.number 8) (.root []) :=
  ⟨rfl,
   if_extra_forms_spec 1 (.root []) (.root []) true (.bool true) (.number 7)
     (.number 8) [.symbol "junk"] rfl⟩

/-- C5: each comparison builtin (`=`, `>`, `>=`, `<`, `<=`) is the
`ensure_tonicity` chain of its relation; on an empty argument list and
on any list containing a non-`Number` it fails, and on a non-empty list
of numbers it returns `Boolean(true)` exactly when the relation holds
between every adjacent pair in left-to-right order (`List.Chain'`), and
`Boolean(false)` otherwise; in particular `<` on 1,2,3 yields `true`
and on 1,3,2 yields `false`. -/
theorem comparison_chain_spec :
    (∀ check : ℚ → ℚ → Bool,
        ensure_tonicity check [] = .error (.reason "expected at least one number"))
  ∧ (∀ (check : ℚ → ℚ → Bool) (args : List RispExp),
        (∃ x ∈ args, is_number x = false) →
        ensure_tonicity check args = .error (.reason "expected a number"))
  ∧ (∀ (check : ℚ → ℚ → Bool) (n : ℚ) (ns : List ℚ),
        ensure_tonicity check ((n :: ns).map RispExp.number)
          = .ok (.bool (decide (List.Chain' (fun a b => check a b = true) (n :: ns)))))
  ∧ (∀ args, apply_func .eq args = ensure_tonicity (fun a b => decide (a = b)) args)
  ∧ (∀ args, apply_func .gt args = ensure_tonicity (fun a b => decide (a > b)) args)
  ∧ (∀ args, apply_func .gte args = ensure_tonicity (fun a b => decide (a ≥ b)) args)
  ∧ (∀ args, apply_func .lt args = ensure_tonicity (fun a b => decide (a < b)) args)
  ∧ (∀ args, apply_func .lte args = ensure_tonicity (fun a b => decide (a ≤ b)) args)
  ∧ apply_func .lt [.number 1, .number 2, .number 3] = .ok (.bool true)
  ∧ apply_func .lt [.number 1, .number 3, .number 2] = .ok (.bool false) := by
  refine ⟨fun check => rfl, ?_, ?_, fun _ => rfl, fun _ => rfl, fun _ => rfl,
          fun _ => rfl, fun _ => rfl, rfl, rfl⟩
  · intro check args h
    simp only [ensure_tonicity, parse_list_of_floats_err args h]
    rfl
  · intro check n ns
    simp only [ensure_tonicity, parse_list_of_floats_numbers (n :: ns),
               tonicity_f_decide]
    rfl

/-- Witness for C5: applied to a concrete argument list containing a
non-`Number`, the comparison chain fails with `"expected a number"`. -/
theorem comparison_chain_spec_witness :
    ensure_tonicity (fun a b => decide (a < b)) [.bool true]
      = .error (.reason "expected a number") :=
  comparison_chain_spec.2.1 (fun a b => decide (a < b)) [.bool true]
    ⟨.bool true, by simp, rfl⟩

/-- C9: the builtin `+` applied to an empty argument list returns
`Number(0)` (the fold of `+` over no arguments starting at `0.0`). -/
theorem plus_empty_args : apply_func .add [] = .ok (.number 0) := rfl

/-- C10: every comparison builtin applied to exactly one `Number`
argument returns `Boolean(true)`, for every number: with no second
element there is no adjacent pair to check. -/
theorem comparison_single_arg (x : ℚ) :
    apply_func .eq [.number x] = .ok (.bool true)
  ∧ apply_func .gt [.number x] = .ok (.bool true)
  ∧ apply_func .gte [.number x] = .ok (.bool true)
  ∧ apply_func .lt [.number x] = .ok (.bool true)
  ∧ apply_func .lte [.number x] = .ok (.bool true) :=
  ⟨rfl, rfl, rfl, rfl, rfl⟩

end Risp
